import Mathlib

/-!
Shallow embedding of the `/predict` endpoint of `app.py`, a Flask sales
prediction service.  The handler receives a JSON object, validates eight
required fields, applies a business-rule shortcut for closed stores or zero
customers, parses the date, one-hot encodes the categorical fields, builds
the model input vector, and invokes the scaler and the model on it.

The scaler and the regression model are opaque external artifacts: the
outcome constructor `modelPrediction v warning` records that they were
invoked on feature vector `v` and whether the low-customer warning was
attached; every other outcome means they were never reached.
-/

set_option maxRecDepth 10000

/-- JSON scalar values as the handler sees them after `request.get_json()`.
Python treats `bool` as a subclass of `int`, so boolean payload values are
kept as their own constructor to model `isinstance` faithfully. -/
inductive JValue where
  | jnull
  | jbool (b : Bool)
  | jint (n : Int)
  | jstr (s : String)
  deriving DecidableEq

/-- Python `isinstance(v, int)`: true for `int` values and for `bool`
values, because `bool` is a subclass of `int`. -/
def isInstInt : JValue → Bool
  | .jint _ => true
  | .jbool _ => true
  | _ => false

/-- Python `isinstance(v, str)`. -/
def isInstStr : JValue → Bool
  | .jstr _ => true
  | _ => false

/-- The integer value Python uses when an `int`-typed or `bool`-typed value
is compared with or used as a number: `True == 1`, `False == 0`. -/
def asInt : JValue → Int
  | .jint n => n
  | .jbool b => if b then 1 else 0
  | _ => 0

/-- The text of a `str`-typed value. -/
def asStr : JValue → String
  | .jstr s => s
  | _ => ""

/-- The JSON object posted to `/predict`: each of the eight keys either
maps to a value (`some v`) or is absent (`none`). -/
structure Payload where
  store_ID : Option JValue
  day_of_week : Option JValue
  date : Option JValue
  nb_customers_on_day : Option JValue
  open_ : Option JValue
  promotion : Option JValue
  state_holiday : Option JValue
  school_holiday : Option JValue
  deriving DecidableEq

/-- Dictionary lookup `data.get(field)`; `none` when the key is absent. -/
def Payload.get (p : Payload) : String → Option JValue
  | "store_ID" => p.store_ID
  | "day_of_week" => p.day_of_week
  | "date" => p.date
  | "nb_customers_on_day" => p.nb_customers_on_day
  | "open" => p.open_
  | "promotion" => p.promotion
  | "state_holiday" => p.state_holiday
  | "school_holiday" => p.school_holiday
  | _ => none

/-- `data[field]` once presence has been established (absent keys read as
JSON null; validation never lets that value through). -/
def jget (p : Payload) (f : String) : JValue :=
  (p.get f).getD .jnull

/-- The `required_fields` list of the handler, in source order. -/
def requiredFields : List String :=
  ["store_ID", "day_of_week", "date", "nb_customers_on_day",
   "open", "promotion", "state_holiday", "school_holiday"]

/-- `missing_fields = [field for field in required_fields if field not in data]`. -/
def missingList (p : Payload) : List String :=
  requiredFields.filter (fun f => (p.get f).isNone)

/-- Outcome of one request, as observable in the HTTP response.
`modelPrediction v warning` is the only outcome on which the scaler and the
model are invoked (both on vector `v`); `warning` records whether the
low-customer warning field is attached to the response. -/
inductive Outcome where
  | missingFields (missing : List String)
  | fieldError (msg : String)
  | shortcutZero (prediction : Rat) (message : String)
  | modelPrediction (vector : List Int) (warning : Bool)
  deriving DecidableEq

/-- HTTP status code of each outcome. -/
def statusCode : Outcome → Nat
  | .missingFields _ => 400
  | .fieldError _ => 400
  | .shortcutZero _ _ => 200
  | .modelPrediction _ _ => 200

/-- True exactly when the JSON response carries a `warning` field. -/
def hasWarningField : Outcome → Bool
  | .modelPrediction _ w => w
  | _ => false

/-- Length of the feature vector handed to the scaler, when one is built. -/
def vectorLength : Outcome → Option Nat
  | .modelPrediction v _ => some v.length
  | _ => none

/-- Message of the shortcut response (line 83 of the source). -/
def shortcutMsg : String :=
  "Store is closed or has no customers. Sales prediction is set to 0."

/-- Error message of the date type check during validation (line 60). -/
def dateTypeMsg : String :=
  "date must be a string in format DD/MM/YYYY"

/-- Error message of the date parsing failure during encoding (line 90). -/
def invalidDateMsg : String :=
  "date must be in format DD/MM/YYYY"

/-- The validation chain of the handler (lines 44 to 77), in source order:
first the cumulative missing-field check, then first-failure type and
domain checks.  Returns the error response produced, or `none` when every
check passes. -/
def validationError (p : Payload) : Option Outcome :=
  if missingList p ≠ [] then
    some (.missingFields (missingList p))
  else if ¬ isInstInt (jget p "store_ID") ∨ asInt (jget p "store_ID") < 0 then
    some (.fieldError "store_ID must be a positive integer")
  else if ¬ isInstInt (jget p "day_of_week") ∨
      ¬ (1 ≤ asInt (jget p "day_of_week") ∧ asInt (jget p "day_of_week") ≤ 7) then
    some (.fieldError "day_of_week must be an integer between 1 and 7")
  else if ¬ isInstStr (jget p "date") then
    some (.fieldError dateTypeMsg)
  else if ¬ isInstInt (jget p "nb_customers_on_day") ∨
      asInt (jget p "nb_customers_on_day") < 0 then
    some (.fieldError "nb_customers_on_day must be a positive integer")
  else if ¬ isInstInt (jget p "open") ∨
      ¬ (asInt (jget p "open") = 0 ∨ asInt (jget p "open") = 1) then
    some (.fieldError "open must be 0 or 1")
  else if ¬ isInstInt (jget p "promotion") ∨
      ¬ (asInt (jget p "promotion") = 0 ∨ asInt (jget p "promotion") = 1) then
    some (.fieldError "promotion must be 0 or 1")
  else if ¬ isInstInt (jget p "school_holiday") ∨
      ¬ (asInt (jget p "school_holiday") = 0 ∨ asInt (jget p "school_holiday") = 1) then
    some (.fieldError "school_holiday must be 0 or 1")
  else if ¬ isInstStr (jget p "state_holiday") ∨
      ¬ (asStr (jget p "state_holiday") ∈ (["0", "a", "b", "c"] : List String)) then
    some (.fieldError "state_holiday must be one of: \x270\x27, \x27a\x27, \x27b\x27, \x27c\x27")
  else
    none

/-- Split a character list at every slash, the field separators of the
`%d/%m/%Y` format string. -/
def splitSlash : List Char → List (List Char)
  | [] => [[]]
  | c :: cs =>
    if c = '/' then [] :: splitSlash cs
    else
      match splitSlash cs with
      | [] => [[c]]
      | h :: t => (c :: h) :: t

/-- Numeric value of a digit string. -/
def digitsVal (cs : List Char) : Nat :=
  cs.foldl (fun a c => 10 * a + (c.toNat - 48)) 0

/-- One numeric field of `strptime`: between `minLen` and `maxLen` digits,
value inside `[lo, hi]`; `none` when the field cannot match. -/
def numField (cs : List Char) (minLen maxLen lo hi : Nat) : Option Nat :=
  if minLen ≤ cs.length ∧ cs.length ≤ maxLen ∧ cs.all (fun c => c.isDigit) then
    if lo ≤ digitsVal cs ∧ digitsVal cs ≤ hi then some (digitsVal cs) else none
  else none

/-- Proleptic-Gregorian leap year test. -/
def isLeap (y : Nat) : Bool :=
  (y % 4 = 0 && y % 100 ≠ 0) || y % 400 = 0

/-- Number of days of month `m` in year `y`. -/
def daysInMonth (y m : Nat) : Nat :=
  if m = 2 then (if isLeap y then 29 else 28)
  else if m = 4 ∨ m = 6 ∨ m = 9 ∨ m = 11 then 30
  else 31

/-- Days of year `y` that precede the first day of month `m`. -/
def daysBeforeMonth (y m : Nat) : Nat :=
  ((List.range (m - 1)).map (fun i => daysInMonth y (i + 1))).sum

/-- `datetime.toordinal()`: days since 31/12/0000 in the proleptic
Gregorian calendar, so that 01/01/0001 is day 1. -/
def toOrdinal (y m d : Nat) : Nat :=
  365 * (y - 1) + (y - 1) / 4 - (y - 1) / 100 + (y - 1) / 400 + daysBeforeMonth y m + d

/-- `datetime.strptime(s, "%d/%m/%Y").toordinal()` as a total function:
`some ordinal` on success, `none` exactly when `strptime` raises
`ValueError` (wrong shape, non-digit characters, field length out of
range, day, month or year out of range, or a day that does not exist in
the given month of the given year). -/
def parseDate (s : String) : Option Nat :=
  match splitSlash s.toList with
  | [d, m, y] =>
    match numField d 1 2 1 31, numField m 1 2 1 12, numField y 4 4 1 9999 with
    | some dd, some mm, some yy =>
      if dd ≤ daysInMonth yy mm then some (toOrdinal yy mm dd) else none
    | _, _, _ => none
  | _ => none

/-- `dow_encoded` (lines 92 to 96): six indicator slots for days 2 to 7;
slot `day_of_week - 2` is set when `day_of_week` lies in `[2, 7]`, and
day 1 leaves all six slots zero. -/
def dowEncoded (d : Int) : List Int :=
  if 2 ≤ d ∧ d ≤ 7 then
    (List.range 6).map (fun (i : Nat) => if (i : Int) = d - 2 then 1 else 0)
  else
    List.replicate 6 0

/-- `state_map` (lines 99 to 105): three indicator slots for holidays
"a", "b", "c"; "0" and any unknown value map to all zeros. -/
def stateMap (s : String) : List Int :=
  if s = "0" then [0, 0, 0]
  else if s = "a" then [1, 0, 0]
  else if s = "b" then [0, 1, 0]
  else if s = "c" then [0, 0, 1]
  else [0, 0, 0]

/-- `input_vector` (lines 109 to 115): the five scalar fields in fixed
order, then the state-holiday indicators, then the day-of-week
indicators. -/
def inputVector (p : Payload) (dateOrdinal : Nat) : List Int :=
  [(dateOrdinal : Int),
   asInt (jget p "nb_customers_on_day"),
   asInt (jget p "promotion"),
   asInt (jget p "school_holiday"),
   asInt (jget p "open")]
  ++ stateMap (asStr (jget p "state_holiday"))
  ++ dowEncoded (asInt (jget p "day_of_week"))

/-- The `/predict` handler (lines 27 to 133): validation, then the
business-rule shortcut, then date parsing, then encoding, scaling and
prediction with the low-customer warning. -/
def predict (p : Payload) : Outcome :=
  match validationError p with
  | some e => e
  | none =>
    if asInt (jget p "open") = 0 ∨ asInt (jget p "nb_customers_on_day") = 0 then
      .shortcutZero 0 shortcutMsg
    else
      match parseDate (asStr (jget p "date")) with
      | none => .fieldError invalidDateMsg
      | some d =>
        .modelPrediction (inputVector p d)
          (decide (asInt (jget p "nb_customers_on_day") < 200))

/-- The worked example of the specification: store 1, Wednesday,
15/06/2015, 500 customers, open, promotion on, no holiday. -/
def examplePayload : Payload :=
  ⟨some (.jint 1), some (.jint 3), some (.jstr "15/06/2015"), some (.jint 500),
   some (.jint 1), some (.jint 1), some (.jstr "0"), some (.jint 0)⟩

/-- A valid request for a closed store with 100 customers recorded. -/
def closedPayload : Payload :=
  ⟨some (.jint 1), some (.jint 3), some (.jstr "15/06/2015"), some (.jint 100),
   some (.jint 0), some (.jint 1), some (.jstr "0"), some (.jint 0)⟩

/-- A valid closed-store request whose date string is not a date at all. -/
def closedBadDatePayload : Payload :=
  ⟨some (.jint 1), some (.jint 3), some (.jstr "not-a-date"), some (.jint 100),
   some (.jint 0), some (.jint 1), some (.jstr "0"), some (.jint 0)⟩

/-- An otherwise valid open-store request with an ISO-formatted date. -/
def isoDatePayload : Payload :=
  ⟨some (.jint 1), some (.jint 3), some (.jstr "2015-01-01"), some (.jint 500),
   some (.jint 1), some (.jint 1), some (.jstr "0"), some (.jint 0)⟩

/-- A request with every required key absent. -/
def emptyPayload : Payload :=
  ⟨none, none, none, none, none, none, none, none⟩

/-- The example request with the JSON boolean `true` for `open`. -/
def boolOpenTruePayload : Payload :=
  ⟨some (.jint 1), some (.jint 3), some (.jstr "15/06/2015"), some (.jint 500),
   some (.jbool true), some (.jint 1), some (.jstr "0"), some (.jint 0)⟩

/-- The example request with the JSON boolean `false` for `open`. -/
def boolOpenFalsePayload : Payload :=
  ⟨some (.jint 1), some (.jint 3), some (.jstr "15/06/2015"), some (.jint 500),
   some (.jbool false), some (.jint 1), some (.jstr "0"), some (.jint 0)⟩

/-- The example request with the integer `0` for `open`. -/
def intOpenZeroPayload : Payload :=
  ⟨some (.jint 1), some (.jint 3), some (.jstr "15/06/2015"), some (.jint 500),
   some (.jint 0), some (.jint 1), some (.jstr "0"), some (.jint 0)⟩

theorem stateMap_length (s : String) : (stateMap s).length = 3 := by
  unfold stateMap
  split_ifs <;> rfl

theorem dowEncoded_length (d : Int) : (dowEncoded d).length = 6 := by
  by_cases h : 2 ≤ d ∧ d ≤ 7
  · rw [dowEncoded, if_pos h, List.length_map, List.length_range]
  · rw [dowEncoded, if_neg h, List.length_replicate]

theorem inputVector_length (p : Payload) (o : Nat) : (inputVector p o).length = 14 := by
  simp [inputVector, stateMap_length, dowEncoded_length]

theorem validationError_not_model (p : Payload) (v : List Int) (w : Bool) :
    validationError p ≠ some (.modelPrediction v w) := by
  unfold validationError
  split_ifs <;> simp

theorem validationError_none_facts (p : Payload) (h : validationError p = none) :
    1 ≤ asInt (jget p "day_of_week") ∧ asInt (jget p "day_of_week") ≤ 7 ∧
    (asStr (jget p "state_holiday") = "0" ∨ asStr (jget p "state_holiday") = "a" ∨
     asStr (jget p "state_holiday") = "b" ∨ asStr (jget p "state_holiday") = "c") := by
  unfold validationError at h
  split_ifs at h with h1 h2 h3 h4 h5 h6 h7 h8 h9
  push_neg at h3 h9
  exact ⟨h3.2.1, h3.2.2, by simpa using h9.2⟩

theorem predict_shortcut (p : Payload) (hval : validationError p = none)
    (hc : asInt (jget p "open") = 0 ∨ asInt (jget p "nb_customers_on_day") = 0) :
    predict p = .shortcutZero 0 shortcutMsg := by
  unfold predict
  rw [hval]
  simp only [if_pos hc]

theorem predict_model_inversion (p : Payload) (v : List Int) (w : Bool)
    (h : predict p = .modelPrediction v w) :
    validationError p = none ∧
    ¬ (asInt (jget p "open") = 0 ∨ asInt (jget p "nb_customers_on_day") = 0) ∧
    ∃ o, parseDate (asStr (jget p "date")) = some o ∧
      v = inputVector p o ∧
      w = decide (asInt (jget p "nb_customers_on_day") < 200) := by
  unfold predict at h
  cases hval : validationError p with
  | some e =>
    rw [hval] at h
    simp only [] at h
    rw [h] at hval
    exact absurd hval (validationError_not_model p v w)
  | none =>
    rw [hval] at h
    by_cases hc : asInt (jget p "open") = 0 ∨ asInt (jget p "nb_customers_on_day") = 0
    · rw [if_pos hc] at h
      exact absurd h (by simp)
    · rw [if_neg hc] at h
      cases hd : parseDate (asStr (jget p "date")) with
      | none =>
        rw [hd] at h
        exact absurd h (by simp)
      | some o =>
        rw [hd] at h
        simp only [Outcome.modelPrediction.injEq] at h
        exact ⟨rfl, hc, o, rfl, h.1.symm, h.2.symm⟩

theorem drop5_inputVector (p : Payload) (o : Nat) :
    (inputVector p o).drop 5 =
      stateMap (asStr (jget p "state_holiday")) ++ dowEncoded (asInt (jget p "day_of_week")) := rfl

theorem drop8_inputVector (p : Payload) (o : Nat) :
    (inputVector p o).drop 8 = dowEncoded (asInt (jget p "day_of_week")) := by
  have h1 : (inputVector p o).drop 8 =
      (stateMap (asStr (jget p "state_holiday")) ++
        dowEncoded (asInt (jget p "day_of_week"))).drop 3 := rfl
  rw [h1]
  exact List.drop_left' (stateMap_length _)

theorem take3_drop5_inputVector (p : Payload) (o : Nat) :
    ((inputVector p o).drop 5).take 3 = stateMap (asStr (jget p "state_holiday")) := by
  rw [drop5_inputVector]
  exact List.take_left' (stateMap_length _)

theorem dowEncoded_props (d : Int) (h2 : 2 ≤ d) (h7 : d ≤ 7) :
    (dowEncoded d).length = 6 ∧
    (dowEncoded d).get? (d - 2).toNat = some 1 ∧
    ∀ i, i < 6 → i ≠ (d - 2).toNat → (dowEncoded d).get? i = some 0 := by
  interval_cases d <;> exact ⟨by decide, by decide, by decide⟩

theorem stateMap_count (s : String)
    (h : s = "a" ∨ s = "b" ∨ s = "c") :
    (stateMap s).count 1 = 1 ∧ (stateMap s).count 0 = 2 := by
  rcases h with h | h | h <;> subst h <;> decide

/-- C1 fails as stated: the feature vector built for the worked example of
the specification (a valid, non-shortcut request) has 14 components, not
11. -/
theorem C1_counterexample :
    vectorLength (predict examplePayload) = some 14 ∧
    vectorLength (predict examplePayload) ≠ some 11 := by
  decide

/-- C1 amended: the FeatureVector produced by the encoder for every valid,
non-shortcut request is an ordered sequence of exactly 14 numeric
components (5 scalar fields, 3 state-holiday indicators, 6 day-of-week
indicators). -/
theorem C1_vector_length (p : Payload) (v : List Int) (w : Bool)
    (h : predict p = .modelPrediction v w) :
    v.length = 14 := by
  obtain ⟨-, -, o, -, hv, -⟩ := predict_model_inversion p v w h
  rw [hv]
  exact inputVector_length p o

theorem C1_vector_length_witness :
    ([735764, 500, 1, 0, 1, 0, 0, 0, 0, 1, 0, 0, 0, 0] : List Int).length = 14 :=
  C1_vector_length examplePayload _ false (by decide)

/-- C2: for every request that passes validation and has `open == 0` or
`nb_customers_on_day == 0`, the response is the 0.0 prediction with the
explanatory message, regardless of all other field values, and the scaler
and model are never invoked (no `modelPrediction` outcome); the check runs
after validation (hypothesis `hval`) and before encoding (no date-parsing
hypothesis is needed). -/
theorem C2_shortcut_rule (p : Payload) (hval : validationError p = none)
    (hc : asInt (jget p "open") = 0 ∨ asInt (jget p "nb_customers_on_day") = 0) :
    predict p = .shortcutZero 0 shortcutMsg ∧
    ∀ v w, predict p ≠ .modelPrediction v w := by
  have h := predict_shortcut p hval hc
  refine ⟨h, fun v w hmodel => ?_⟩
  rw [h] at hmodel
  cases hmodel

theorem C2_shortcut_rule_witness :
    predict closedPayload = Outcome.shortcutZero 0 shortcutMsg :=
  (C2_shortcut_rule closedPayload (by decide) (by decide)).1

/-- C3 fails as stated: `closedPayload` is a valid request with
`nb_customers_on_day = 100 < 200`, yet its response (the shortcut) carries
no warning field. -/
theorem C3_counterexample :
    validationError closedPayload = none ∧
    asInt (jget closedPayload "nb_customers_on_day") < 200 ∧
    hasWarningField (predict closedPayload) = false := by
  decide

/-- C3 amended: for every valid request that reaches the model path (open,
nonzero customers, parseable date) the response carries a warning field
exactly when `nb_customers_on_day < 200`; and no request whatsoever with
`nb_customers_on_day ≥ 200` gets a warning field. -/
theorem C3_warning_rule (p : Payload) :
    (∀ v w, predict p = .modelPrediction v w →
      (hasWarningField (predict p) = true ↔
        asInt (jget p "nb_customers_on_day") < 200)) ∧
    (200 ≤ asInt (jget p "nb_customers_on_day") →
      hasWarningField (predict p) = false) := by
  constructor
  · intro v w h
    obtain ⟨-, -, o, -, -, hw⟩ := predict_model_inversion p v w h
    rw [h]
    subst hw
    simp [hasWarningField]
  · intro hge
    cases hp : predict p with
    | missingFields m => rfl
    | fieldError m => rfl
    | shortcutZero r m => rfl
    | modelPrediction v w =>
      obtain ⟨-, -, o, -, -, hw⟩ := predict_model_inversion p v w hp
      subst hw
      simp [hasWarningField]
      omega

theorem C3_warning_rule_witness :
    hasWarningField (predict examplePayload) = false :=
  (C3_warning_rule examplePayload).2 (by decide)

/-- C4: whenever at least one of the 8 required keys is absent, the
response is the 400 missing-fields error, and its `missing` list contains
exactly the absent keys — every absent key and nothing else. -/
theorem C4_missing_fields (p : Payload)
    (h : ∃ f ∈ requiredFields, p.get f = none) :
    predict p = .missingFields (missingList p) ∧
    statusCode (predict p) = 400 ∧
    ∀ f ∈ requiredFields, (p.get f = none ↔ f ∈ missingList p) := by
  have hne : missingList p ≠ [] := by
    obtain ⟨f, hf, hnone⟩ := h
    intro hempty
    have hmem : f ∈ missingList p := List.mem_filter.mpr ⟨hf, by simp [hnone]⟩
    rw [hempty] at hmem
    cases hmem
  have hval : validationError p = some (.missingFields (missingList p)) := by
    unfold validationError
    rw [if_pos hne]
  have hpred : predict p = .missingFields (missingList p) := by
    unfold predict
    rw [hval]
  refine ⟨hpred, by rw [hpred]; rfl, fun f hf => ?_⟩
  constructor
  · intro hnone
    exact List.mem_filter.mpr ⟨hf, by simp [hnone]⟩
  · intro hmem
    have hx := (List.mem_filter.mp hmem).2
    simpa using hx

theorem C4_missing_fields_witness :
    predict emptyPayload = Outcome.missingFields (missingList emptyPayload) :=
  (C4_missing_fields emptyPayload ⟨"date", by decide, by decide⟩).1

/-- C5: in every feature vector built for a valid request, the six
day-of-week slots (positions 8 to 13) hold exactly one 1, at slot
`day_of_week - 2`, when `day_of_week ∈ [2,7]`, and are all zero when
`day_of_week = 1`; the three state-holiday slots (positions 5 to 7) hold
exactly one 1 when `state_holiday ∈ {"a","b","c"}` and are all zero when
`state_holiday = "0"`. -/
theorem C5_one_hot (p : Payload) (v : List Int) (w : Bool)
    (h : predict p = .modelPrediction v w) :
    ((2 ≤ asInt (jget p "day_of_week") ∧ asInt (jget p "day_of_week") ≤ 7) →
      (v.drop 8).length = 6 ∧
      (v.drop 8).get? (asInt (jget p "day_of_week") - 2).toNat = some 1 ∧
      ∀ i, i < 6 → i ≠ (asInt (jget p "day_of_week") - 2).toNat →
        (v.drop 8).get? i = some 0) ∧
    (asInt (jget p "day_of_week") = 1 → v.drop 8 = [0, 0, 0, 0, 0, 0]) ∧
    ((asStr (jget p "state_holiday") = "a" ∨ asStr (jget p "state_holiday") = "b" ∨
      asStr (jget p "state_holiday") = "c") →
      ((v.drop 5).take 3).count 1 = 1 ∧ ((v.drop 5).take 3).count 0 = 2) ∧
    (asStr (jget p "state_holiday") = "0" → (v.drop 5).take 3 = [0, 0, 0]) := by
  obtain ⟨hval, -, o, -, hv, -⟩ := predict_model_inversion p v w h
  subst hv
  rw [drop8_inputVector, take3_drop5_inputVector]
  refine ⟨?_, ?_, ?_, ?_⟩
  · intro hdw
    obtain ⟨h1, h2, h3⟩ := dowEncoded_props _ hdw.1 hdw.2
    exact ⟨dowEncoded_length _, h2, h3⟩
  · intro h1
    rw [h1]
    decide
  · intro hs
    exact stateMap_count _ hs
  · intro hs
    rw [hs]
    decide

theorem C5_one_hot_witness :
    (([735764, 500, 1, 0, 1, 0, 0, 0, 0, 1, 0, 0, 0, 0] : List Int).drop 8).get?
      (asInt (jget examplePayload "day_of_week") - 2).toNat = some 1 :=
  ((C5_one_hot examplePayload _ false (by decide)).1 (by decide)).2.1

/-- C6: the encoder emits the components in the fixed order
`[dateOrdinal, customerCount, promotion, schoolHoliday, open]`, then the 3
state-holiday indicators, then the 6 day-of-week indicators; on the
specification example (store 1, Wednesday 15/06/2015, 500 customers, open,
promotion, no holiday) it yields
`[toOrdinal 2015 6 15, 500, 1, 0, 1, 0,0,0, 0,1,0,0,0,0]` with
`toOrdinal 2015 6 15 = 735764` and no warning. -/
theorem C6_example_vector :
    predict examplePayload =
      .modelPrediction
        [(toOrdinal 2015 6 15 : Int), 500, 1, 0, 1, 0, 0, 0, 0, 1, 0, 0, 0, 0] false ∧
    parseDate "15/06/2015" = some (toOrdinal 2015 6 15) ∧
    toOrdinal 2015 6 15 = 735764 := by
  decide

/-- C7: every validated, non-shortcut request whose date string does not
parse as DD/MM/YYYY gets the 400 `InvalidDateFormat` response, whose
message differs from the generic date type-check message; in particular
"2015-01-01" and "32/01/2015" fail to parse.  The date format is checked
only during encoding: validation (`hval`) has already succeeded. -/
theorem C7_invalid_date (p : Payload) (hval : validationError p = none)
    (hs : ¬ (asInt (jget p "open") = 0 ∨ asInt (jget p "nb_customers_on_day") = 0))
    (hd : parseDate (asStr (jget p "date")) = none) :
    predict p = .fieldError invalidDateMsg ∧
    statusCode (predict p) = 400 ∧
    invalidDateMsg ≠ dateTypeMsg ∧
    parseDate "2015-01-01" = none ∧
    parseDate "32/01/2015" = none := by
  have hpred : predict p = .fieldError invalidDateMsg := by
    unfold predict
    rw [hval]
    rw [if_neg hs, hd]
  exact ⟨hpred, by rw [hpred]; rfl, by decide, by decide, by decide⟩

theorem C7_invalid_date_witness :
    predict isoDatePayload = Outcome.fieldError invalidDateMsg :=
  (C7_invalid_date isoDatePayload (by decide) (by decide) (by decide)).1

/-- C8: encoding is deterministic — `predict` is a pure function of the
request fields, so two structurally-equal valid requests produce the
identical feature vector (and identical outcome). -/
theorem C8_determinism (p q : Payload) (h : p = q) (v : List Int) (w : Bool)
    (hp : predict p = .modelPrediction v w) :
    predict q = .modelPrediction v w := by
  rw [← h]
  exact hp

theorem C8_determinism_witness :
    predict examplePayload =
      Outcome.modelPrediction [735764, 500, 1, 0, 1, 0, 0, 0, 0, 1, 0, 0, 0, 0] false :=
  C8_determinism examplePayload examplePayload rfl _ false (by decide)

/-- C9: the shortcut fires before date parsing, so a validated request
with `open == 0` or `nb_customers_on_day == 0` whose date string does not
parse as DD/MM/YYYY still gets the 0.0 shortcut response, and never the
`InvalidDateFormat` error. -/
theorem C9_shortcut_beats_date (p : Payload) (hval : validationError p = none)
    (_hd : parseDate (asStr (jget p "date")) = none)
    (hc : asInt (jget p "open") = 0 ∨ asInt (jget p "nb_customers_on_day") = 0) :
    predict p = .shortcutZero 0 shortcutMsg ∧
    predict p ≠ .fieldError invalidDateMsg := by
  have h := predict_shortcut p hval hc
  refine ⟨h, ?_⟩
  rw [h]
  intro hx
  cases hx

theorem C9_shortcut_beats_date_witness :
    predict closedBadDatePayload = Outcome.shortcutZero 0 shortcutMsg :=
  (C9_shortcut_beats_date closedBadDatePayload (by decide) (by decide) (by decide)).1

/-- C10: Python's `bool` is a subclass of `int`, so the `isinstance(·, int)`
checks accept JSON booleans: `open = true` passes validation and is
processed exactly like `open = 1`, and `open = false` exactly like
`open = 0` (triggering the shortcut), rather than being rejected as a type
error. -/
theorem C10_bool_as_int :
    (∀ b, isInstInt (.jbool b) = true) ∧
    asInt (.jbool true) = 1 ∧ asInt (.jbool false) = 0 ∧
    validationError boolOpenTruePayload = none ∧
    predict boolOpenTruePayload = predict examplePayload ∧
    validationError boolOpenFalsePayload = none ∧
    predict boolOpenFalsePayload = predict intOpenZeroPayload ∧
    predict boolOpenFalsePayload = .shortcutZero 0 shortcutMsg := by
  refine ⟨fun b => ?_, by decide, by decide, by decide, by decide, by decide, by decide, by decide⟩
  cases b <;> rfl
